import Mathlib

/-!
Shallow embedding of the clip-extraction API route of this repository
(`src/unnamed/part_000`, a Next.js route handler).  The handler `POST`
validates a JSON body (`validateBody`, lines 20-30), resolves a downloadable
format from the remote video's manifest via `ytdl.chooseFormat`
(lines 50-55), opens the remote stream, trims and re-encodes it with an
external ffmpeg process into a per-request temp file `/tmp/clip_<id>.mp4`
(lines 37-99), reads the file back, unlinks it, and answers with the bytes
and download headers (lines 101-112); any thrown error is converted to a
plain-text 500 response by the surrounding try/catch (lines 113-116).

External effects (the manifest fetch, the transcoder run, the file read)
are modelled as oracle inputs in an `Env`; the handler's observable
behaviour is its `Response` plus a `Trace` of which stages ran and the
list of files left on disk when it returns.
-/

/-- Model of a JavaScript number as used by the handler: finite values are
rationals, and NaN and the two infinities are explicit because the source's
`typeof x === "number"` test accepts all of them. -/
inductive JSNum where
  | nan : JSNum
  | posInf : JSNum
  | negInf : JSNum
  | fin : ℚ → JSNum
  deriving DecidableEq, Repr

/-- JavaScript `a <= b`: any comparison involving NaN is false. -/
def JSNum.jsLe : JSNum → JSNum → Bool
  | .nan, _ => false
  | _, .nan => false
  | .negInf, _ => true
  | _, .posInf => true
  | .posInf, _ => false
  | .fin _, .negInf => false
  | .fin a, .fin b => decide (a ≤ b)

/-- JavaScript subtraction `a - b` extended to NaN and infinities. -/
def JSNum.jsSub : JSNum → JSNum → JSNum
  | .nan, _ => .nan
  | _, .nan => .nan
  | .posInf, .posInf => .nan
  | .posInf, _ => .posInf
  | .negInf, .negInf => .nan
  | .negInf, _ => .negInf
  | .fin _, .posInf => .negInf
  | .fin _, .negInf => .posInf
  | .fin a, .fin b => .fin (a - b)

/-- JavaScript `Math.max`: NaN if either argument is NaN, else the larger. -/
def JSNum.jsMax : JSNum → JSNum → JSNum
  | .nan, _ => .nan
  | _, .nan => .nan
  | .posInf, _ => .posInf
  | _, .posInf => .posInf
  | .negInf, b => b
  | a, .negInf => a
  | .fin a, .fin b => .fin (max a b)

/-- `String(Math.floor(x))` as used in the Content-Disposition filename
(line 109): `Math.floor` rounds toward negative infinity and is the
identity on NaN and the infinities, and JavaScript stringifies those as
"NaN", "Infinity" and "-Infinity". -/
def JSNum.floorString : JSNum → String
  | .nan => "NaN"
  | .posInf => "Infinity"
  | .negInf => "-Infinity"
  | .fin q => toString (Rat.floor q)

/-- Integer truncation (rounding toward zero) rendered as a string; this is
the reading of "floor truncates to integers" used by the spec, and differs
from `JSNum.floorString` exactly on negative non-integer finite values. -/
def JSNum.truncString : JSNum → String
  | .nan => "NaN"
  | .posInf => "Infinity"
  | .negInf => "-Infinity"
  | .fin q => toString (if q < 0 then -(Rat.floor (-q)) else Rat.floor q)

/-- The request body type (lines 13-18).  Fields are optional; a field that
is absent or (for `url`/`start`/`end`) of the wrong JSON type is modelled as
`none`, which is exactly what the source's `typeof` checks reject. -/
structure Body where
  url : Option String
  start : Option JSNum
  «end» : Option JSNum
  format : Option String
  deriving DecidableEq, Repr

/-- Embeds `validateBody` (lines 20-30) together with the handler's
subsequent destructuring `const { url, start, end } = body` (line 36): on
success it returns the validated `(url, start, end)`.  The source's
`!body.url` also rejects the empty string (falsy), its `typeof` checks
reject absent fields, and `body.end <= body.start` is the JavaScript
comparison, in which NaN compares false. -/
def validateBody (b : Body) : Except String (String × JSNum × JSNum) :=
  match b.url with
  | none => .error "Missing url"
  | some u =>
    if u = "" then .error "Missing url"
    else
      match b.start, b.«end» with
      | some s, some e =>
        if JSNum.jsLe e s then .error "end must be greater than start"
        else .ok (u, s, e)
      | _, _ => .error "Missing start/end"

/-- One entry of the remote manifest (a ytdl-core format object), with the
fields the handler reads (line 52, 57, 62) plus the spec's quality rank.
An absent stream URL is modelled as the empty string, matching the falsy
test `!format.url` on line 57. -/
structure Format where
  container : String
  hasVideo : Bool
  hasAudio : Bool
  isHLS : Bool
  isDashMPD : Bool
  qualityRank : Nat
  url : String
  itag : Nat
  deriving DecidableEq, Repr

/-- The filter lambda of line 52: progressive mp4 carrying both tracks and
not segmented (neither HLS nor DASH). -/
def progressiveFilter (f : Format) : Bool :=
  f.container == "mp4" && f.hasVideo && f.hasAudio && !f.isHLS && !f.isDashMPD

/-- Highest-quality-rank element of a list of formats (`quality: "highest"`),
`none` on the empty list; on ties the earlier element wins. -/
def bestByQuality : List Format → Option Format
  | [] => none
  | f :: fs =>
    match bestByQuality fs with
    | none => some f
    | some g => if g.qualityRank > f.qualityRank then some g else some f

/-- Modelled from the spec: `ytdl.chooseFormat` is library code that is not
part of this repository.  Per the spec's Resolver description it applies
the given filter (when one is given) and then selects the candidate with
the highest quality rank, yielding no candidate when none remain. -/
def chooseFormat (formats : List Format) (filter : Option (Format → Bool)) :
    Option Format :=
  let pool :=
    match filter with
    | some p => formats.filter p
    | none => formats
  bestByQuality pool

/-- The format-selection expression of lines 50-55: the strict progressive
mp4 choice, falling back (the source's `||`) to the unfiltered
highest-quality choice. -/
def selectFormat (formats : List Format) : Option Format :=
  match chooseFormat formats (some progressiveFilter) with
  | some f => some f
  | none => chooseFormat formats none

/-- Outcome of the ffmpeg run of lines 69-99: the promise either resolves
(`end` event) or rejects (`error` event); on rejection `wroteFile` records
whether a (partial) output file had been created at the target path. -/
inductive TranscodeOutcome where
  | success : TranscodeOutcome
  | failure : String → Bool → TranscodeOutcome
  deriving DecidableEq, Repr

/-- Oracle inputs for one request: the generated UUID (line 40), the result
of `ytdl.getInfo` (line 49), the transcoder outcome (lines 69-99) and the
result of `fs.readFile` (line 101). -/
structure Env where
  freshId : String
  getInfo : Except String (List Format)
  transcode : TranscodeOutcome
  readFile : Except String (List Nat)
  deriving Repr

/-- The ffmpeg invocation assembled on lines 70-98, recorded field by field:
`ss` and `t` are the values following the `-ss` and `-t` flags, the codec
and container settings are the literal option strings, and `outFile` is the
`.save` target path. -/
structure FfmpegCmd where
  ss : JSNum
  t : JSNum
  vcodec : String
  preset : String
  crf : String
  acodec : String
  movflags : String
  container : String
  outFile : String
  deriving DecidableEq, Repr

/-- A response body: binary payload (line 105) or plain text (lines 58, 115). -/
inductive RespBody where
  | bytes : List Nat → RespBody
  | text : String → RespBody
  deriving DecidableEq, Repr

/-- An HTTP response as constructed by the handler. -/
structure Response where
  status : Nat
  headers : List (String × String)
  body : RespBody
  deriving DecidableEq, Repr

/-- Which stages of the pipeline ran, the temp path allocated for the
request (line 41), and the transcoder invocation if one was made. -/
structure Trace where
  manifestFetched : Bool
  streamOpened : Bool
  transcoderInvoked : Bool
  allocatedPath : Option String
  command : Option FfmpegCmd
  deriving DecidableEq, Repr

/-- The trace of a request that fails validation: nothing was invoked. -/
def emptyTrace : Trace :=
  { manifestFetched := false, streamOpened := false, transcoderInvoked := false,
    allocatedPath := none, command := none }

/-- The full observable outcome of one request: the response, the trace,
and the files present on disk when the handler returns. -/
structure Outcome where
  resp : Response
  trace : Trace
  files : List String
  deriving DecidableEq, Repr

/-- The route handler `POST` (lines 32-117).  Control flow follows the
source: validation failure throws into the catch block (plain-text 500);
the temp path is computed (lines 40-41) before `getInfo`; a missing or
URL-less chosen format answers 400 (lines 57-59); a transcoder rejection
or a `readFile` rejection throws into the catch block, in both cases
skipping the `fs.unlink` of line 103, which runs only after a successful
read; the success response carries the three headers of lines 107-111. -/
def POST (body : Body) (env : Env) : Outcome :=
  match validateBody body with
  | .error msg => ⟨⟨500, [], .text msg⟩, emptyTrace, []⟩
  | .ok (_u, s, e) =>
    let duration := JSNum.jsMax (.fin (mkRat 1 100)) (JSNum.jsSub e s)
    let outFile := "/tmp/clip_" ++ env.freshId ++ ".mp4"
    match env.getInfo with
    | .error msg =>
      ⟨⟨500, [], .text msg⟩,
       { manifestFetched := true, streamOpened := false,
         transcoderInvoked := false, allocatedPath := some outFile,
         command := none }, []⟩
    | .ok formats =>
      match selectFormat formats with
      | none =>
        ⟨⟨400, [], .text "Failed to get a downloadable format"⟩,
         { manifestFetched := true, streamOpened := false,
           transcoderInvoked := false, allocatedPath := some outFile,
           command := none }, []⟩
      | some f =>
        if f.url = "" then
          ⟨⟨400, [], .text "Failed to get a downloadable format"⟩,
           { manifestFetched := true, streamOpened := false,
             transcoderInvoked := false, allocatedPath := some outFile,
             command := none }, []⟩
        else
          let cmd : FfmpegCmd :=
            { ss := s, t := duration, vcodec := "libx264",
              preset := "veryfast", crf := "23", acodec := "aac",
              movflags := "+faststart", container := "mp4",
              outFile := outFile }
          let tr : Trace :=
            { manifestFetched := true, streamOpened := true,
              transcoderInvoked := true, allocatedPath := some outFile,
              command := some cmd }
          match env.transcode with
          | .failure msg wroteFile =>
            ⟨⟨500, [], .text msg⟩, tr, if wroteFile then [outFile] else []⟩
          | .success =>
            match env.readFile with
            | .error msg => ⟨⟨500, [], .text msg⟩, tr, [outFile]⟩
            | .ok data =>
              ⟨⟨200,
                [("Content-Type", "video/mp4"),
                 ("Content-Disposition",
                  "attachment; filename=\"clip_" ++ JSNum.floorString s ++
                    "-" ++ JSNum.floorString e ++ ".mp4\""),
                 ("Cache-Control", "no-store")],
                .bytes data⟩, tr, []⟩

/-! ### Helper lemmas about highest-quality selection -/

theorem bestByQuality_eq_none {l : List Format} (h : bestByQuality l = none) :
    l = [] := by
  cases l with
  | nil => rfl
  | cons f fs =>
    rw [bestByQuality] at h
    rcases hb : bestByQuality fs with _ | g <;> simp only [hb] at h
    · simp at h
    · by_cases hgt : g.qualityRank > f.qualityRank <;> simp [hgt] at h

theorem bestByQuality_mem {l : List Format} {g : Format}
    (h : bestByQuality l = some g) : g ∈ l := by
  induction l with
  | nil => simp [bestByQuality] at h
  | cons f fs ih =>
    rw [bestByQuality] at h
    rcases hb : bestByQuality fs with _ | g0 <;> simp only [hb] at h
    · rw [Option.some.injEq] at h
      subst h
      exact List.mem_cons_self f fs
    · by_cases hgt : g0.qualityRank > f.qualityRank
      · rw [if_pos hgt, Option.some.injEq] at h
        subst h
        exact List.mem_cons_of_mem f (ih hb)
      · rw [if_neg hgt, Option.some.injEq] at h
        subst h
        exact List.mem_cons_self f fs

theorem bestByQuality_le {l : List Format} {g : Format}
    (h : bestByQuality l = some g) :
    ∀ x ∈ l, x.qualityRank ≤ g.qualityRank := by
  induction l generalizing g with
  | nil => simp [bestByQuality] at h
  | cons f fs ih =>
    rw [bestByQuality] at h
    rcases hb : bestByQuality fs with _ | g0 <;> simp only [hb] at h
    · rw [Option.some.injEq] at h
      subst h
      have hfs : fs = [] := bestByQuality_eq_none hb
      subst hfs
      intro x hx
      rw [List.mem_singleton] at hx
      subst hx
      exact le_refl _
    · intro x hx
      by_cases hgt : g0.qualityRank > f.qualityRank
      · rw [if_pos hgt, Option.some.injEq] at h
        subst h
        rcases List.mem_cons.mp hx with hx | hx
        · subst hx
          exact le_of_lt hgt
        · exact ih hb x hx
      · rw [if_neg hgt, Option.some.injEq] at h
        subst h
        rcases List.mem_cons.mp hx with hx | hx
        · subst hx
          exact le_refl _
        · exact le_trans (ih hb x hx) (Nat.le_of_not_lt hgt)

/-! ### Concrete scenario data -/

/-- A progressive mp4 candidate with a retrievable URL. -/
def okFormat : Format :=
  { container := "mp4", hasVideo := true, hasAudio := true, isHLS := false,
    isDashMPD := false, qualityRank := 5, url := "https://cdn/stream",
    itag := 18 }

/-- A lower-quality progressive mp4 candidate. -/
def progA : Format :=
  { container := "mp4", hasVideo := true, hasAudio := true, isHLS := false,
    isDashMPD := false, qualityRank := 3, url := "https://cdn/a", itag := 1 }

/-- A higher-quality progressive mp4 candidate. -/
def progB : Format :=
  { container := "mp4", hasVideo := true, hasAudio := true, isHLS := false,
    isDashMPD := false, qualityRank := 7, url := "https://cdn/b", itag := 2 }

/-- A segmented (HLS) candidate that outranks every progressive one. -/
def segC : Format :=
  { container := "mp4", hasVideo := true, hasAudio := true, isHLS := true,
    isDashMPD := false, qualityRank := 9, url := "https://cdn/c", itag := 3 }

/-- An audio-only candidate. -/
def audioD : Format :=
  { container := "m4a", hasVideo := false, hasAudio := true, isHLS := false,
    isDashMPD := false, qualityRank := 2, url := "https://cdn/d", itag := 4 }

/-! ### C3: strict progressive selection -/

/-- C3: whenever the manifest contains at least one progressive mp4
candidate with both tracks and no segmentation, the selection of
lines 50-55 returns such a candidate, of maximal quality rank among
exactly those candidates — never a segmented, video-only or audio-only
one. -/
theorem C3_theorem (formats : List Format) (f : Format)
    (hmem : f ∈ formats) (hprog : progressiveFilter f = true) :
    ∃ g, selectFormat formats = some g ∧ progressiveFilter g = true ∧
      ∀ x ∈ formats, progressiveFilter x = true →
        x.qualityRank ≤ g.qualityRank := by
  have hmemf : f ∈ formats.filter progressiveFilter :=
    List.mem_filter.mpr ⟨hmem, hprog⟩
  cases hb : bestByQuality (formats.filter progressiveFilter) with
  | none =>
    rw [bestByQuality_eq_none hb] at hmemf
    simp at hmemf
  | some g =>
    refine ⟨g, ?_, ?_, ?_⟩
    · simp [selectFormat, chooseFormat, hb]
    · exact (List.mem_filter.mp (bestByQuality_mem hb)).2
    · intro x hx hpx
      exact bestByQuality_le hb x (List.mem_filter.mpr ⟨hx, hpx⟩)

/-- Witness for C3 on a concrete manifest: the segmented candidate `segC`
outranks both progressive ones, yet `progB` (the best progressive) wins. -/
theorem C3_witness :
    ∃ g, selectFormat [progA, segC, progB] = some g ∧
      progressiveFilter g = true ∧
      ∀ x ∈ [progA, segC, progB], progressiveFilter x = true →
        x.qualityRank ≤ g.qualityRank :=
  C3_theorem [progA, segC, progB] progA (by decide) (by decide)

/-! ### C4: best-effort fallback -/

/-- C4: on a non-empty manifest with no candidate passing the strict
progressive filter, the selection of lines 50-55 does not fail: it falls
back to the highest-quality-rank candidate overall. -/
theorem C4_theorem (formats : List Format) (hne : formats ≠ [])
    (hnone : ∀ x ∈ formats, progressiveFilter x = false) :
    ∃ g, selectFormat formats = some g ∧ g ∈ formats ∧
      ∀ x ∈ formats, x.qualityRank ≤ g.qualityRank := by
  have hfilt : formats.filter progressiveFilter = [] := by
    rw [List.filter_eq_nil_iff]
    intro a ha
    simp [hnone a ha]
  cases hb : bestByQuality formats with
  | none => exact absurd (bestByQuality_eq_none hb) hne
  | some g =>
    refine ⟨g, ?_, bestByQuality_mem hb, bestByQuality_le hb⟩
    simp [selectFormat, chooseFormat, hfilt, bestByQuality, hb]

/-- Witness for C4 on a concrete manifest holding only an audio-only and a
segmented candidate: the segmented one, having the higher rank, is chosen. -/
theorem C4_witness :
    ∃ g, selectFormat [audioD, segC] = some g ∧ g ∈ [audioD, segC] ∧
      ∀ x ∈ [audioD, segC], x.qualityRank ≤ g.qualityRank :=
  C4_theorem [audioD, segC] (by decide) (by decide)

/-! ### C1: artifact cleanup on transcode failure -/

/-- Request of a well-formed clip from 0s to 5s. -/
def c1Body : Body :=
  { url := some "https://example/v", start := some (.fin 0),
    «end» := some (.fin 5), format := none }

/-- Environment in which the transcoder rejects after having created a
partial output file. -/
def c1Env : Env :=
  { freshId := "cafebabe", getInfo := .ok [okFormat],
    transcode := .failure "ffmpeg exited with code 1" true,
    readFile := .ok [] }

/-- C1, counterexample: a request whose transcoder exits abnormally
completes with a 500 response, yet the partial file at the allocated path
`/tmp/clip_cafebabe.mp4` is still on disk when the handler returns — the
`fs.unlink` of line 103 is reached only on the success path, not from the
catch block. -/
theorem C1_counterexample :
    c1Env.transcode = .failure "ffmpeg exited with code 1" true ∧
    (POST c1Body c1Env).resp.status = 500 ∧
    (POST c1Body c1Env).trace.allocatedPath = some "/tmp/clip_cafebabe.mp4" ∧
    "/tmp/clip_cafebabe.mp4" ∈ (POST c1Body c1Env).files := by
  decide

/-- C1 as amended: deletion happens only on the success path; whenever the
transcoder was invoked and rejected after writing a partial file, that file
is still present at the allocated path when the response completes. -/
theorem C1_theorem (b : Body) (env : Env) (msg : String)
    (hfail : env.transcode = .failure msg true)
    (hinv : (POST b env).trace.transcoderInvoked = true) :
    ∃ p, (POST b env).trace.allocatedPath = some p ∧
      p ∈ (POST b env).files := by
  rcases hv : validateBody b with m | ⟨u, s, e⟩
  · simp [POST, hv, emptyTrace] at hinv
  · rcases hg : env.getInfo with m | formats
    · simp [POST, hv, hg] at hinv
    · rcases hf : selectFormat formats with _ | f
      · simp [POST, hv, hg, hf] at hinv
      · by_cases hu : f.url = ""
        · simp [POST, hv, hg, hf, hu] at hinv
        · refine ⟨"/tmp/clip_" ++ env.freshId ++ ".mp4", ?_, ?_⟩ <;>
            simp [POST, hv, hg, hf, hu, hfail]

/-- Witness for C1 at the concrete failing-transcode scenario. -/
theorem C1_witness :
    ∃ p, (POST c1Body c1Env).trace.allocatedPath = some p ∧
      p ∈ (POST c1Body c1Env).files :=
  C1_theorem c1Body c1Env "ffmpeg exited with code 1" rfl rfl

/-! ### C2: invalid requests are rejected before any external work -/

/-- C2: a request with a missing url, missing start or end, or with
`end <= start` (under the JavaScript comparison) fails validation and is
answered with the validation error as plain text and status 500, with no
manifest fetch, no stream open, no transcoder invocation and no artifact
allocation. -/
theorem C2_theorem (b : Body) (env : Env)
    (h : b.url = none ∨ b.url = some "" ∨ b.start = none ∨ b.«end» = none ∨
      ∃ s e, b.start = some s ∧ b.«end» = some e ∧ JSNum.jsLe e s = true) :
    (∃ msg, validateBody b = .error msg ∧
      (POST b env).resp = ⟨500, [], .text msg⟩) ∧
    (POST b env).trace.manifestFetched = false ∧
    (POST b env).trace.streamOpened = false ∧
    (POST b env).trace.transcoderInvoked = false ∧
    (POST b env).trace.allocatedPath = none ∧
    (POST b env).files = [] := by
  have herr : ∃ msg, validateBody b = .error msg := by
    rcases hu : b.url with _ | u
    · exact ⟨"Missing url", by simp [validateBody, hu]⟩
    · by_cases hue : u = ""
      · exact ⟨"Missing url", by simp [validateBody, hu, hue]⟩
      · rcases hs : b.start with _ | s
        · exact ⟨"Missing start/end", by simp [validateBody, hu, hue, hs]⟩
        · rcases he : b.«end» with _ | e
          · exact ⟨"Missing start/end", by simp [validateBody, hu, hue, hs, he]⟩
          · have hle : JSNum.jsLe e s = true := by
              rcases h with h | h | h | h | ⟨s9, e9, hs9, he9, hle9⟩
              · simp [hu] at h
              · simp [hu] at h
                exact absurd h hue
              · simp [hs] at h
              · simp [he] at h
              · rw [hs] at hs9
                rw [he] at he9
                rw [Option.some.injEq] at hs9 he9
                subst hs9
                subst he9
                exact hle9
            exact ⟨"end must be greater than start",
              by simp [validateBody, hu, hue, hs, he, hle]⟩
  obtain ⟨msg, hmsg⟩ := herr
  refine ⟨⟨msg, hmsg, ?_⟩, ?_, ?_, ?_, ?_, ?_⟩ <;>
    simp [POST, hmsg, emptyTrace]

/-- The spec's own example of an invalid request: `start = end = 20`. -/
def c2Body : Body :=
  { url := some "https://example/v", start := some (.fin 20),
    «end» := some (.fin 20), format := some "mp4" }

/-- An environment in which every external stage would succeed, so that any
observed short-circuit is due to validation alone. -/
def c2Env : Env :=
  { freshId := "id2", getInfo := .ok [okFormat], transcode := .success,
    readFile := .ok [0] }

/-- Witness for C2 at the concrete request with `start = end = 20`. -/
theorem C2_witness :
    (∃ msg, validateBody c2Body = .error msg ∧
      (POST c2Body c2Env).resp = ⟨500, [], .text msg⟩) ∧
    (POST c2Body c2Env).trace.manifestFetched = false ∧
    (POST c2Body c2Env).trace.streamOpened = false ∧
    (POST c2Body c2Env).trace.transcoderInvoked = false ∧
    (POST c2Body c2Env).trace.allocatedPath = none ∧
    (POST c2Body c2Env).files = [] :=
  C2_theorem c2Body c2Env
    (Or.inr (Or.inr (Or.inr (Or.inr
      ⟨.fin 20, .fin 20, rfl, rfl, by decide⟩))))

/-! ### C5: the duration handed to the transcoder -/

/-- C5: for every request that passes validation and leads to a transcoder
invocation, the value following the `-t` output-limit flag equals
`Math.max(0.01, end - start)` for the request's own start and end. -/
theorem C5_theorem (b : Body) (env : Env) (u : String) (s e : JSNum)
    (hv : validateBody b = .ok (u, s, e)) (c : FfmpegCmd)
    (hc : (POST b env).trace.command = some c) :
    c.t = JSNum.jsMax (.fin (mkRat 1 100)) (JSNum.jsSub e s) := by
  rcases hg : env.getInfo with m | formats
  · simp [POST, hv, hg] at hc
  · rcases hf : selectFormat formats with _ | f
    · simp [POST, hv, hg, hf] at hc
    · by_cases hu2 : f.url = ""
      · simp [POST, hv, hg, hf, hu2] at hc
      · rcases ht : env.transcode with _ | ⟨m, w⟩
        · rcases hr : env.readFile with m | d
          · simp [POST, hv, hg, hf, hu2, ht, hr] at hc
            simp [← hc]
          · simp [POST, hv, hg, hf, hu2, ht, hr] at hc
            simp [← hc]
        · simp [POST, hv, hg, hf, hu2, ht] at hc
          simp [← hc]

/-- A valid request from 1s to 3s. -/
def c5Body : Body :=
  { url := some "https://example/v", start := some (.fin 1),
    «end» := some (.fin 3), format := none }

/-- An all-success environment for the 1s-to-3s request. -/
def c5Env : Env :=
  { freshId := "id5", getInfo := .ok [okFormat], transcode := .success,
    readFile := .ok [9] }

/-- The ffmpeg invocation recorded for `c5Body` in `c5Env`. -/
def c5Cmd : FfmpegCmd :=
  { ss := .fin 1,
    t := JSNum.jsMax (.fin (mkRat 1 100)) (JSNum.jsSub (.fin 3) (.fin 1)),
    vcodec := "libx264", preset := "veryfast", crf := "23", acodec := "aac",
    movflags := "+faststart", container := "mp4",
    outFile := "/tmp/clip_id5.mp4" }

/-- Witness for C5 at the concrete 1s-to-3s request. -/
theorem C5_witness :
    c5Cmd.t = JSNum.jsMax (.fin (mkRat 1 100)) (JSNum.jsSub (.fin 3) (.fin 1)) :=
  C5_theorem c5Body c5Env "https://example/v" (.fin 1) (.fin 3) rfl c5Cmd rfl

/-! ### C6: validation does not require finiteness -/

/-- A request whose start is NaN and whose end is the finite number 5. -/
def c6Body : Body :=
  { url := some "https://example/v", start := some .nan,
    «end» := some (.fin 5), format := none }

/-- C6, counterexample: the claim says a NaN start must fail validation,
but `typeof NaN === "number"` and `5 <= NaN` is false, so this request
passes validation. -/
theorem C6_counterexample :
    validateBody c6Body = .ok ("https://example/v", .nan, .fin 5) := rfl

/-- C6 as amended: validation accepts any numeric start and end — finite or
not — provided the url is a nonempty string and the JavaScript comparison
`end <= start` evaluates to false (as it always does when either bound is
NaN). -/
theorem C6_theorem (u : String) (s e : JSNum) (fm : Option String)
    (hu : u ≠ "") (hle : JSNum.jsLe e s = false) :
    validateBody
      { url := some u, start := some s, «end» := some e, format := fm } =
      .ok (u, s, e) := by
  simp [validateBody, hu, hle]

/-- Witness for C6: a NaN start together with an infinite end passes
validation. -/
theorem C6_witness :
    validateBody
      { url := some "v", start := some .nan, «end» := some .posInf,
        format := none } = .ok ("v", .nan, .posInf) :=
  C6_theorem "v" .nan .posInf none (by decide) rfl

/-! ### C7: validation does not reject negative starts -/

/-- A request asking for the window from -5s to 0s. -/
def c7Body : Body :=
  { url := some "https://example/v", start := some (.fin (-5)),
    «end» := some (.fin 0), format := none }

/-- An all-success environment for the negative-start request. -/
def c7Env : Env :=
  { freshId := "id7", getInfo := .ok [okFormat], transcode := .success,
    readFile := .ok [1, 2] }

/-- C7, counterexample: the claim says a negative start is rejected as
invalid, but validation only compares `end <= start`, so start = -5 with
end = 0 passes and the request reaches the resolver and the transcoder,
completing with a 200 response. -/
theorem C7_counterexample :
    validateBody c7Body = .ok ("https://example/v", .fin (-5), .fin 0) ∧
    (POST c7Body c7Env).trace.manifestFetched = true ∧
    (POST c7Body c7Env).trace.transcoderInvoked = true ∧
    (POST c7Body c7Env).resp.status = 200 := by
  refine ⟨rfl, ?_, ?_, ?_⟩ <;> rfl

/-- C7 as amended: validation does not constrain the sign of start; any
request with a nonempty url and a negative numeric start is accepted
whenever `end <= start` is false, and proceeds to the manifest fetch. -/
theorem C7_theorem (u : String) (q : ℚ) (e : JSNum) (fm : Option String)
    (env : Env) (hu : u ≠ "") (_hneg : q < 0)
    (hle : JSNum.jsLe e (.fin q) = false) :
    validateBody
      { url := some u, start := some (.fin q), «end» := some e,
        format := fm } = .ok (u, .fin q, e) ∧
    (POST
      { url := some u, start := some (.fin q), «end» := some e,
        format := fm } env).trace.manifestFetched = true := by
  have hv : validateBody
      { url := some u, start := some (.fin q), «end» := some e,
        format := fm } = .ok (u, .fin q, e) := by
    simp [validateBody, hu, hle]
  refine ⟨hv, ?_⟩
  rcases hg : env.getInfo with m | formats
  · simp [POST, hv, hg]
  · rcases hf : selectFormat formats with _ | f
    · simp [POST, hv, hg, hf]
    · by_cases hu2 : f.url = ""
      · simp [POST, hv, hg, hf, hu2]
      · rcases ht : env.transcode with _ | ⟨m, w⟩
        · rcases hr : env.readFile with m | d <;>
            simp [POST, hv, hg, hf, hu2, ht, hr]
        · simp [POST, hv, hg, hf, hu2, ht]

/-- Witness for C7 at start = -5, end = 0. -/
theorem C7_witness :
    validateBody
      { url := some "v", start := some (.fin (-5)), «end» := some (.fin 0),
        format := none } = .ok ("v", .fin (-5), .fin 0) ∧
    (POST
      { url := some "v", start := some (.fin (-5)), «end» := some (.fin 0),
        format := none } c7Env).trace.manifestFetched = true :=
  C7_theorem "v" (-5) (.fin 0) none c7Env (by decide) (by decide) (by decide)

/-! ### C8: success response headers and filename -/

/-- A valid request with a negative fractional start: -5.5s to 1s. -/
def c8Body : Body :=
  { url := some "https://example/v", start := some (.fin (mkRat (-11) 2)),
    «end» := some (.fin 1), format := none }

/-- An all-success environment for the -5.5s-to-1s request. -/
def c8Env : Env :=
  { freshId := "id8", getInfo := .ok [okFormat], transcode := .success,
    readFile := .ok [7] }

/-- C8, counterexample: the request with start = -5.5, end = 1 completes
successfully, and its Content-Disposition filename is "clip_-6-1.mp4"
(`Math.floor` rounds toward negative infinity), not the "clip_-5-1.mp4"
that integer truncation of the start would give. -/
theorem C8_counterexample :
    (POST c8Body c8Env).resp.status = 200 ∧
    ("Content-Disposition",
      "attachment; filename=\"clip_" ++
        JSNum.truncString (.fin (mkRat (-11) 2)) ++ "-" ++
        JSNum.truncString (.fin 1) ++ ".mp4\"") ∉
      (POST c8Body c8Env).resp.headers ∧
    ("Content-Disposition", "attachment; filename=\"clip_-6-1.mp4\"") ∈
      (POST c8Body c8Env).resp.headers := by
  decide

/-- C8 as amended: every successful response has status 200 and exactly the
headers Content-Type video/mp4, Cache-Control no-store, and a
Content-Disposition filename built from `Math.floor` of the request's start
and end — floor rounding toward negative infinity, which agrees with
truncation only for non-negative values. -/
theorem C8_theorem (b : Body) (env : Env)
    (h200 : (POST b env).resp.status = 200) :
    ∃ u s e, validateBody b = .ok (u, s, e) ∧
      (POST b env).resp.headers =
        [("Content-Type", "video/mp4"),
         ("Content-Disposition",
          "attachment; filename=\"clip_" ++ JSNum.floorString s ++ "-" ++
            JSNum.floorString e ++ ".mp4\""),
         ("Cache-Control", "no-store")] := by
  rcases hv : validateBody b with m | ⟨u, s, e⟩
  · simp [POST, hv] at h200
  · rcases hg : env.getInfo with m | formats
    · simp [POST, hv, hg] at h200
    · rcases hf : selectFormat formats with _ | f
      · simp [POST, hv, hg, hf] at h200
      · by_cases hu2 : f.url = ""
        · simp [POST, hv, hg, hf, hu2] at h200
        · rcases ht : env.transcode with _ | ⟨m, w⟩
          · rcases hr : env.readFile with m | d
            · simp [POST, hv, hg, hf, hu2, ht, hr] at h200
            · exact ⟨u, s, e, rfl, by simp [POST, hv, hg, hf, hu2, ht, hr]⟩
          · simp [POST, hv, hg, hf, hu2, ht] at h200

/-- The spec's end-to-end example: a valid request from 10s to 15s. -/
def c8okBody : Body :=
  { url := some "https://example/v", start := some (.fin 10),
    «end» := some (.fin 15), format := some "mp4" }

/-- Witness for C8 at the successful 10s-to-15s request. -/
theorem C8_witness :
    ∃ u s e, validateBody c8okBody = .ok (u, s, e) ∧
      (POST c8okBody c8Env).resp.headers =
        [("Content-Type", "video/mp4"),
         ("Content-Disposition",
          "attachment; filename=\"clip_" ++ JSNum.floorString s ++ "-" ++
            JSNum.floorString e ++ ".mp4\""),
         ("Cache-Control", "no-store")] :=
  C8_theorem c8okBody c8Env rfl

/-! ### C9: failure statuses -/

/-- A progressive mp4 candidate without a retrievable stream URL. -/
def nourlFormat : Format :=
  { container := "mp4", hasVideo := true, hasAudio := true, isHLS := false,
    isDashMPD := false, qualityRank := 4, url := "", itag := 22 }

/-- A valid request from 10s to 15s. -/
def c9Body : Body :=
  { url := some "https://example/v", start := some (.fin 10),
    «end» := some (.fin 15), format := some "mp4" }

/-- An environment whose manifest offers only the URL-less candidate. -/
def c9Env : Env :=
  { freshId := "id9", getInfo := .ok [nourlFormat], transcode := .success,
    readFile := .ok [3] }

/-- C9, counterexample: a NoPlayableFormat failure — the manifest was
fetched but no candidate exposes a retrievable stream URL — is answered
with status 400, not the claimed 500. -/
theorem C9_counterexample :
    (POST c9Body c9Env).trace.manifestFetched = true ∧
    (POST c9Body c9Env).resp.status = 400 ∧
    (POST c9Body c9Env).resp.body =
      .text "Failed to get a downloadable format" := by
  decide

/-- C9 as amended: every failing request carries a plain-text body and
status 400 or 500; status 400 occurs exactly for the no-downloadable-format
failure, which is detected after the manifest fetch, and all other
failures — including validation failures — use 500. -/
theorem C9_theorem (b : Body) (env : Env)
    (hfail : (POST b env).resp.status ≠ 200) :
    (∃ m, (POST b env).resp.body = .text m) ∧
    ((POST b env).resp.status = 400 ∨ (POST b env).resp.status = 500) ∧
    ((POST b env).resp.status = 400 →
      (POST b env).resp.body = .text "Failed to get a downloadable format" ∧
      (POST b env).trace.manifestFetched = true) := by
  rcases hv : validateBody b with m | ⟨u, s, e⟩
  · simp [POST, hv]
  · rcases hg : env.getInfo with m | formats
    · simp [POST, hv, hg]
    · rcases hf : selectFormat formats with _ | f
      · simp [POST, hv, hg, hf]
      · by_cases hu2 : f.url = ""
        · simp [POST, hv, hg, hf, hu2]
        · rcases ht : env.transcode with _ | ⟨m, w⟩
          · rcases hr : env.readFile with m | d
            · simp [POST, hv, hg, hf, hu2, ht, hr]
            · simp [POST, hv, hg, hf, hu2, ht, hr] at hfail
          · simp [POST, hv, hg, hf, hu2, ht]

/-- Witness for C9 at the URL-less-manifest scenario. -/
theorem C9_witness :
    (∃ m, (POST c9Body c9Env).resp.body = .text m) ∧
    ((POST c9Body c9Env).resp.status = 400 ∨
      (POST c9Body c9Env).resp.status = 500) ∧
    ((POST c9Body c9Env).resp.status = 400 →
      (POST c9Body c9Env).resp.body =
        .text "Failed to get a downloadable format" ∧
      (POST c9Body c9Env).trace.manifestFetched = true) :=
  C9_theorem c9Body c9Env (by decide)

/-! ### C10: the format field is inert and the output container is mp4 -/

/-- C10: the request body's `format` field has no influence on behaviour —
two requests differing only in that field produce identical outcomes
(response, trace and remaining files) — and any transcoder invocation the
handler makes targets the mp4 container. -/
theorem C10_theorem (b : Body) (env : Env) (v w : Option String) :
    POST { b with format := v } env = POST { b with format := w } env ∧
    ((POST b env).trace.command.all fun c => c.container == "mp4") = true := by
  constructor
  · cases b
    rfl
  · rcases hv : validateBody b with m | ⟨u, s, e⟩
    · simp [POST, hv, emptyTrace]
    · rcases hg : env.getInfo with m | formats
      · simp [POST, hv, hg]
      · rcases hf : selectFormat formats with _ | f
        · simp [POST, hv, hg, hf]
        · by_cases hu2 : f.url = ""
          · simp [POST, hv, hg, hf, hu2]
          · rcases ht : env.transcode with _ | ⟨m, w'⟩
            · rcases hr : env.readFile with m | d <;>
                simp [POST, hv, hg, hf, hu2, ht, hr, Option.all]
            · simp [POST, hv, hg, hf, hu2, ht, Option.all]
